import Mathlib

/-!
Shallow embedding of the session/tunnel subsystem of the rport server
(files `server/session_service.go`, `server/clients/client.go`).

Conventions of the embedding:
* Go `time.Time` instants and `time.Duration` values are modelled as `Int`
  (nanoseconds); `*time.Time` / `*time.Duration` become `Option Int`.
* The per-session tunnel-ID counter (`tunnelIDAutoIncrement`, an `int64`
  mutated only by `atomic.AddInt64(_, 1)`) is modelled as `Nat`: it only
  ever increments starting from 0, and the int64 overflow point (2^63
  allocations) is unreachable, so wraparound is not modelled.
* Fallible external calls (tunnel `Start`/`Terminate`, ACL parsing, the
  port distributor) are parametrised by oracles describing their outcome,
  so theorems quantify over every possible behaviour of the environment.
* Go methods that mutate their receiver are modelled as functions
  returning the updated value alongside the result.
-/

namespace Rport

/-- Modelled from the spec: a `TunnelACL` is an ordered list of CIDR rules
(`server/sessions` ACL code is not under `src/`; only its parse result is
needed here, so rules are kept as opaque strings). -/
abbrev TunnelACL := List String

/-- Modelled from the spec (§3 Remote, §6): one requested forwarding from
`chshare.Remote` (package `share` is not under `src/`): optional local
host/port for the server-side listener, required remote host/port, a scheme
hint, an ACL string, and the `localPortRandom` marker set when the server
allocates the port. -/
structure Remote where
  localHost : String := ""
  localPort : String := ""
  remoteHost : String
  remotePort : String
  scheme : Option String := none
  acl : String := ""
  localPortRandom : Bool := false
deriving DecidableEq, Repr

/-- Modelled from the spec (§3): the local side of a remote is specified
when a local port is present (`chshare.Remote.IsLocalSpecified` is not
under `src/`). -/
def Remote.IsLocalSpecified (r : Remote) : Bool :=
  !(r.localPort == "")

/-- Modelled from the spec (§3 Tunnel): the tunnel record carries its
stable decimal-string ID, the originating Remote and the parsed ACL
(`sessions.Tunnel` itself is not under `src/`; its listener machinery is
irrelevant to the claims and is represented by the outcome oracles). -/
structure Tunnel where
  id : String
  remote : Remote
  acl : TunnelACL
deriving DecidableEq, Repr

/-- Modelled from the spec (§4.3 tie-breaks): `Tunnel.Equals(remote)`
compares the four-tuple (localHost, localPort, remoteHost, remotePort) and
the scheme. -/
def Tunnel.equals (t : Tunnel) (r : Remote) : Bool :=
  t.remote.localHost == r.localHost && t.remote.localPort == r.localPort &&
    t.remote.remoteHost == r.remoteHost && t.remote.remotePort == r.remotePort &&
    t.remote.scheme == r.scheme

/-- Modelled from the spec (§4.3): `NewTunnel(logger, conn, id, remote, acl)`
constructs the tunnel record (logger and connection are external
collaborators and carry no state relevant to the claims). -/
def NewTunnel (id : String) (r : Remote) (acl : TunnelACL) : Tunnel :=
  { id := id, remote := r, acl := acl }

/-- The session/client record, from `clients.Client`
(`server/clients/client.go`). The same entity appears in
`server/session_service.go` as `sessions.ClientSession`, where the
disconnection field is called `Disconnected`; both are modelled by the
single field `DisconnectedAt`. The external handles (`Connection`,
`Context`, `Logger`) and the mutex are omitted: connections are modelled
by the outcome oracles and the embedding is sequential. -/
structure Client where
  ID : String := ""
  Name : String := ""
  OS : String := ""
  OSArch : String := ""
  OSFamily : String := ""
  OSKernel : String := ""
  Hostname : String := ""
  IPv4 : List String := []
  IPv6 : List String := []
  Tags : List String := []
  Version : String := ""
  Address : String := ""
  Tunnels : List Tunnel := []
  DisconnectedAt : Option Int := none
  ClientAuthID : String := ""
  tunnelIDAutoIncrement : Nat := 0
deriving DecidableEq, Repr

/-- Embeds `Client.Obsolete` (`server/clients/client.go:56`): true when both the
duration and the disconnection time are present and
`DisconnectedAt.Add(*duration).Before(now())`, i.e. the instant
`DisconnectedAt + duration` is strictly before `now`. `now` is passed
explicitly (the Go code reads the stubbed package variable `now`). -/
def Client.Obsolete (c : Client) (duration : Option Int) (nowT : Int) : Bool :=
  match duration, c.DisconnectedAt with
  | some d, some t => decide (t + d < nowT)
  | _, _ => false

/-- A client with every field at its zero value; base point for concrete
instances used in witnesses and counterexamples. -/
def emptyClient : Client := {}

/-- Embeds the `ConnectionState` values (`server/clients/client.go:20`). -/
inductive ConnState where
  | connected
  | disconnected
deriving DecidableEq, Repr

/-- Embeds `Client.ConnectionState` (`server/clients/client.go:201`): `Connected`
iff `DisconnectedAt` is nil. -/
def Client.ConnectionState (c : Client) : ConnState :=
  match c.DisconnectedAt with
  | none => ConnState.connected
  | some _ => ConnState.disconnected

/-- Embeds `Client.FindTunnelByRemote` (`server/clients/client.go:69`): linear
scan of the tunnel list, returning the first tunnel that `Equals` the
remote, or nil. -/
def Client.FindTunnelByRemote (c : Client) (r : Remote) : Option Tunnel :=
  c.Tunnels.find? (fun curr => curr.equals r)

/-- Embeds `Client.FindTunnel` (`server/clients/client.go:104`): linear scan by
tunnel ID. -/
def Client.FindTunnel (c : Client) (id : String) : Option Tunnel :=
  c.Tunnels.find? (fun curr => curr.id == id)

/-- Embeds `Client.generateNewTunnelID` (`server/clients/client.go:113`):
`atomic.AddInt64(&c.tunnelIDAutoIncrement, 1)` — increments the counter
and returns the incremented value together with the updated client. -/
def Client.generateNewTunnelID (c : Client) : Nat × Client :=
  let v := c.tunnelIDAutoIncrement + 1
  (v, { c with tunnelIDAutoIncrement := v })

/-- Embeds `Client.StartTunnel` (`server/clients/client.go:78`). `startErr` is
the outcome oracle for `Tunnel.Start` (the listener bind, whose code is
not under `src/`): `some e` means `Start` fails with error `e`. Mirrors
the Go control flow: return an existing equal tunnel; else allocate the
next ID, build the tunnel, run `Start`, on failure return the error (the
ID stays consumed), on success append the tunnel to the list. -/
def Client.StartTunnel (c : Client) (startErr : Remote → Option String)
    (r : Remote) (acl : TunnelACL) : Except String Tunnel × Client :=
  match c.FindTunnelByRemote r with
  | some t => (Except.ok t, c)
  | none =>
    let (n, c1) := c.generateNewTunnelID
    let t := NewTunnel (toString n) r acl
    match startErr r with
    | some e => (Except.error e, c1)
    | none => (Except.ok t, { c1 with Tunnels := c1.Tunnels ++ [t] })

/-- Embeds `Client.removeTunnel` (`server/clients/client.go:117`): rebuilds the
tunnel list keeping every element whose ID differs from `t.ID`. -/
def Client.removeTunnel (c : Client) (t : Tunnel) : Client :=
  { c with
    Tunnels := c.Tunnels.foldl
      (fun result curr => if curr.id ≠ t.id then result ++ [curr] else result) [] }

/-- Embeds `Client.TerminateTunnel` (`server/clients/client.go:94`). `termErr`
is the outcome oracle for `t.Terminate()` (tunnel teardown code is not
under `src/`): `some e` means `Terminate` returned error `e`. The Go code
returns the error before reaching `removeTunnel`. -/
def Client.TerminateTunnel (c : Client) (termErr : Option String) (t : Tunnel) :
    Option String × Client :=
  match termErr with
  | some e => (some e, c)
  | none => (none, c.removeTunnel t)

/-- C3: the claim reads `Obsolete(D) = true` iff `D` and `DisconnectedAt`
are present and `now − DisconnectedAt ≥ D`; at the exact boundary
`now − DisconnectedAt = D` the code uses Go strict `Before` and returns
`false`, refuting the "≥" reading: here `D = 5`, `DisconnectedAt = 0`,
`now = 5`. -/
theorem obsolete_boundary_counterexample :
    ({ emptyClient with DisconnectedAt := some 0 } : Client).Obsolete (some 5) 5 = false
      ∧ (5 : Int) - 0 ≥ 5 := by
  exact ⟨rfl, by norm_num⟩

/-- C3 (amended): `Obsolete(D)` returns true iff `D` is present,
`DisconnectedAt` is present, and `now − DisconnectedAt` is strictly
greater than `D`. -/
theorem obsolete_iff_strictly_older (c : Client) (duration : Option Int) (nowT : Int) :
    c.Obsolete duration nowT = true ↔
      ∃ d t, duration = some d ∧ c.DisconnectedAt = some t ∧ nowT - t > d := by
  unfold Client.Obsolete
  cases hd : duration with
  | none => simp
  | some d =>
    cases hc : c.DisconnectedAt with
    | none => simp
    | some t =>
      simp only [decide_eq_true_eq, Option.some.injEq]
      constructor
      · intro h
        exact ⟨d, t, rfl, rfl, by omega⟩
      · rintro ⟨d', t', hd', ht', hlt⟩
        cases hd'
        cases ht'
        omega

/-- Shared concrete remote for witnesses. -/
def remoteA : Remote := { remoteHost := "target", remotePort := "22" }

/-- Shared concrete tunnel for witnesses: tunnel "1" realizing `remoteA`. -/
def tunnelA : Tunnel := NewTunnel "1" remoteA []

/-- Shared concrete client holding `tunnelA`. -/
def clientA : Client :=
  { emptyClient with ID := "c1", Tunnels := [tunnelA], tunnelIDAutoIncrement := 1 }

/-- The rebuild loop of `removeTunnel` computes a filter of the original
list: of the accumulator followed by every element whose ID differs. -/
theorem removeFold_eq_filter (tid : String) :
    ∀ (l : List Tunnel) (acc : List Tunnel),
      l.foldl (fun result curr => if curr.id ≠ tid then result ++ [curr] else result) acc
        = acc ++ l.filter (fun curr => !(curr.id == tid))
  | [], acc => by simp
  | curr :: rest, acc => by
    by_cases h : curr.id = tid
    · simpa [List.filter_cons, h] using removeFold_eq_filter tid rest acc
    · simpa [List.filter_cons, h] using removeFold_eq_filter tid rest (acc ++ [curr])

/-- C10: `removeTunnel(t)` removes exactly the tunnels whose ID equals
`t.ID` (object identity plays no role), keeps exactly those whose ID
differs, and preserves the relative order of the kept tunnels: the
resulting list is the ID-based filter of the original, an order-preserving
sublist whose members are the original tunnels with a different ID. -/
theorem removeTunnel_removes_by_id (c : Client) (t : Tunnel) :
    (c.removeTunnel t).Tunnels = c.Tunnels.filter (fun curr => !(curr.id == t.id))
      ∧ (∀ x, x ∈ (c.removeTunnel t).Tunnels ↔ x ∈ c.Tunnels ∧ x.id ≠ t.id)
      ∧ (c.removeTunnel t).Tunnels.Sublist c.Tunnels := by
  have hfold := removeFold_eq_filter t.id c.Tunnels []
  have heq : (c.removeTunnel t).Tunnels
      = c.Tunnels.filter (fun curr => !(curr.id == t.id)) := by
    unfold Client.removeTunnel
    simpa using hfold
  refine ⟨heq, ?_, ?_⟩
  · intro x
    rw [heq, List.mem_filter]
    simp
  · rw [heq]
    exact List.filter_sublist _

/-- C2: the claim states that removal of `t` from the tunnel list occurs
even when `t.Terminate()` returns an error. The code returns the error
before `removeTunnel`: on a client holding tunnel "1", with `Terminate`
failing, the error propagates and the tunnel is still in the list. -/
theorem terminateTunnel_error_keeps_tunnel :
    (clientA.TerminateTunnel (some "terminate failed") tunnelA).1 = some "terminate failed"
      ∧ tunnelA ∈ (clientA.TerminateTunnel (some "terminate failed") tunnelA).2.Tunnels := by
  constructor
  · rfl
  · show tunnelA ∈ clientA.Tunnels
    simp [clientA]

/-- C2 (amended): `TerminateTunnel(t)` calls `t.Terminate()` and returns
its outcome; when `Terminate` errors the client is left unchanged (no
removal), and only when `Terminate` succeeds is `t` removed from the
tunnel list by ID. -/
theorem terminateTunnel_removes_only_on_success (c : Client) (termErr : Option String)
    (t : Tunnel) :
    (c.TerminateTunnel termErr t).1 = termErr
      ∧ (∀ e, termErr = some e → (c.TerminateTunnel termErr t).2 = c)
      ∧ (termErr = none →
          (c.TerminateTunnel termErr t).2.Tunnels
            = c.Tunnels.filter (fun curr => !(curr.id == t.id))) := by
  cases termErr with
  | some e =>
    refine ⟨rfl, ?_, ?_⟩
    · intro e1 h1
      rfl
    · intro h
      cases h
  | none =>
    refine ⟨rfl, ?_, ?_⟩
    · intro e1 h1
      cases h1
    · intro h
      show (c.removeTunnel t).Tunnels = _
      unfold Client.removeTunnel
      simpa using removeFold_eq_filter t.id c.Tunnels []

/-- C2 witness: on the concrete client holding tunnel "1", a successful
`Terminate` removes it from the list. -/
theorem terminateTunnel_removes_only_on_success_witness :
    (clientA.TerminateTunnel none tunnelA).2.Tunnels
      = clientA.Tunnels.filter (fun curr => !(curr.id == tunnelA.id)) :=
  (terminateTunnel_removes_only_on_success clientA none tunnelA).2.2 rfl

/-- C4: when some tunnel already in the list `Equals` the requested
remote, `StartTunnel` returns that existing tunnel without error and the
client is unchanged: no new tunnel ID is allocated (the counter is
untouched) and the tunnel list keeps the same elements. -/
theorem startTunnel_idempotent_on_equal_remote (c : Client)
    (startErr : Remote → Option String) (r : Remote) (acl : TunnelACL)
    (h : ∃ t ∈ c.Tunnels, t.equals r = true) :
    ∃ t, c.StartTunnel startErr r acl = (Except.ok t, c)
      ∧ t ∈ c.Tunnels ∧ t.equals r = true := by
  have hsome : (c.Tunnels.find? (fun curr => curr.equals r)).isSome := by
    rw [List.find?_isSome]
    obtain ⟨t, ht, he⟩ := h
    exact ⟨t, ht, he⟩
  obtain ⟨t, hf⟩ := Option.isSome_iff_exists.mp hsome
  refine ⟨t, ?_, List.mem_of_find?_eq_some hf, by simpa using List.find?_some hf⟩
  unfold Client.StartTunnel Client.FindTunnelByRemote
  rw [hf]

/-- C4 witness: starting `remoteA` again on the client already holding a
tunnel for it returns the existing tunnel and changes nothing. -/
theorem startTunnel_idempotent_witness :
    ∃ t, clientA.StartTunnel (fun _ => none) remoteA [] = (Except.ok t, clientA)
      ∧ t ∈ clientA.Tunnels ∧ t.equals remoteA = true :=
  startTunnel_idempotent_on_equal_remote clientA (fun _ => none) remoteA []
    ⟨tunnelA, by decide, by decide⟩

/-- Equation: `StartTunnel` on a remote already realized by an existing
equal tunnel returns that tunnel and leaves the client untouched. -/
theorem startTunnel_found_eq (c : Client) (se : Remote → Option String) (r : Remote)
    (acl : TunnelACL) (t : Tunnel) (hf : c.FindTunnelByRemote r = some t) :
    c.StartTunnel se r acl = (Except.ok t, c) := by
  unfold Client.StartTunnel
  rw [hf]

/-- Equation: `StartTunnel` on a fresh remote whose `Start` fails returns
the error; only the ID counter advances. -/
theorem startTunnel_new_fail_eq (c : Client) (se : Remote → Option String) (r : Remote)
    (acl : TunnelACL) (e : String) (hf : c.FindTunnelByRemote r = none)
    (hse : se r = some e) :
    c.StartTunnel se r acl =
      (Except.error e, { c with tunnelIDAutoIncrement := c.tunnelIDAutoIncrement + 1 }) := by
  unfold Client.StartTunnel Client.generateNewTunnelID
  rw [hf]
  simp only [hse]

/-- Equation: `StartTunnel` on a fresh remote whose `Start` succeeds
appends the new tunnel, whose ID is the decimal form of the incremented
counter. -/
theorem startTunnel_new_ok_eq (c : Client) (se : Remote → Option String) (r : Remote)
    (acl : TunnelACL) (hf : c.FindTunnelByRemote r = none) (hse : se r = none) :
    c.StartTunnel se r acl =
      (Except.ok (NewTunnel (toString (c.tunnelIDAutoIncrement + 1)) r acl),
        { c with
          tunnelIDAutoIncrement := c.tunnelIDAutoIncrement + 1,
          Tunnels := c.Tunnels ++ [NewTunnel (toString (c.tunnelIDAutoIncrement + 1)) r acl] }) := by
  unfold Client.StartTunnel Client.generateNewTunnelID
  rw [hf]
  simp only [hse]

/-- One `StartTunnel` invocation in a run: the `Start` outcome oracle,
the requested remote and its parsed ACL. -/
structure StartOp where
  startErr : Remote → Option String
  remote : Remote
  acl : TunnelACL

/-- Runs a sequence of `StartTunnel` calls against a client, keeping only
the evolving client state. -/
def Client.startTunnelRun (c : Client) (ops : List StartOp) : Client :=
  ops.foldl (fun acc op => (acc.StartTunnel op.startErr op.remote op.acl).2) c

/-- Tunnel-ID bookkeeping invariant: the IDs in the tunnel list, in order,
are the decimal forms of a strictly increasing list of naturals, all at
least 1 and at most the current counter value. -/
def TunnelIDInv (c : Client) : Prop :=
  ∃ ns : List Nat,
    c.Tunnels.map (fun t => t.id) = ns.map toString
      ∧ List.Pairwise (· < ·) ns
      ∧ ∀ n ∈ ns, 1 ≤ n ∧ n ≤ c.tunnelIDAutoIncrement

/-- Every single `StartTunnel` call preserves the tunnel-ID invariant. -/
theorem startTunnel_preserves_idInv (c : Client) (se : Remote → Option String)
    (r : Remote) (acl : TunnelACL) (h : TunnelIDInv c) :
    TunnelIDInv (c.StartTunnel se r acl).2 := by
  obtain ⟨ns, hmap, hpw, hbd⟩ := h
  cases hf : c.FindTunnelByRemote r with
  | some t =>
    rw [startTunnel_found_eq c se r acl t hf]
    exact ⟨ns, hmap, hpw, hbd⟩
  | none =>
    cases hse : se r with
    | some e =>
      rw [startTunnel_new_fail_eq c se r acl e hf hse]
      exact ⟨ns, hmap, hpw, fun n hn =>
        ⟨(hbd n hn).1, Nat.le_trans (hbd n hn).2 (Nat.le_succ _)⟩⟩
    | none =>
      rw [startTunnel_new_ok_eq c se r acl hf hse]
      refine ⟨ns ++ [c.tunnelIDAutoIncrement + 1], ?_, ?_, ?_⟩
      · simp [NewTunnel, hmap]
      · rw [List.pairwise_append]
        refine ⟨hpw, List.pairwise_singleton _ _, ?_⟩
        intro x hx y hy
        have hy1 : y = c.tunnelIDAutoIncrement + 1 := by simpa using hy
        subst hy1
        have := (hbd x hx).2
        omega
      · intro n hn
        rcases List.mem_append.mp hn with hn1 | hn2
        · exact ⟨(hbd n hn1).1, Nat.le_trans (hbd n hn1).2 (Nat.le_succ _)⟩
        · have hn3 : n = c.tunnelIDAutoIncrement + 1 := by simpa using hn2
          subst hn3
          exact ⟨Nat.le_add_left 1 _, Nat.le_refl _⟩

/-- A whole run of `StartTunnel` calls preserves the tunnel-ID
invariant. -/
theorem startTunnelRun_preserves_idInv (ops : List StartOp) (c : Client)
    (h : TunnelIDInv c) : TunnelIDInv (c.startTunnelRun ops) := by
  induction ops generalizing c with
  | nil => exact h
  | cons op rest ih =>
    exact ih _ (startTunnel_preserves_idInv c op.startErr op.remote op.acl h)

/-- C5: starting from a fresh session (no tunnels, counter 0), after any
sequence of `StartTunnel` calls the tunnel IDs in creation order are the
decimal representations of a strictly increasing list of naturals, each
at least 1; and the first allocation (on a fresh session, with `Start`
succeeding) hands out exactly the ID "1". -/
theorem tunnel_ids_strictly_increasing (c : Client) (ops : List StartOp)
    (h0 : c.Tunnels = [] ∧ c.tunnelIDAutoIncrement = 0) :
    (∃ ns : List Nat,
        (c.startTunnelRun ops).Tunnels.map (fun t => t.id) = ns.map toString
          ∧ List.Pairwise (· < ·) ns
          ∧ ∀ n ∈ ns, 1 ≤ n)
      ∧ ∀ se r acl, se r = none →
          (c.StartTunnel se r acl).1 = Except.ok (NewTunnel "1" r acl) := by
  obtain ⟨hT, hN⟩ := h0
  constructor
  · have hinv : TunnelIDInv c := ⟨[], by simp [hT], List.Pairwise.nil, by simp⟩
    obtain ⟨ns, hmap, hpw, hbd⟩ := startTunnelRun_preserves_idInv ops c hinv
    exact ⟨ns, hmap, hpw, fun n hn => (hbd n hn).1⟩
  · intro se r acl hse
    have hf : c.FindTunnelByRemote r = none := by
      unfold Client.FindTunnelByRemote
      rw [hT]
      rfl
    rw [startTunnel_new_ok_eq c se r acl hf hse, hN]
    rfl

/-- C5 witness: two successful allocations on a fresh session. -/
theorem tunnel_ids_strictly_increasing_witness :
    (∃ ns : List Nat,
        (emptyClient.startTunnelRun
            [⟨fun _ => none, { remoteHost := "h1", remotePort := "1" }, []⟩,
             ⟨fun _ => none, { remoteHost := "h2", remotePort := "2" }, []⟩]).Tunnels.map
              (fun t => t.id) = ns.map toString
          ∧ List.Pairwise (· < ·) ns
          ∧ ∀ n ∈ ns, 1 ≤ n)
      ∧ ∀ se r acl, se r = none →
          (emptyClient.StartTunnel se r acl).1 = Except.ok (NewTunnel "1" r acl) :=
  tunnel_ids_strictly_increasing emptyClient
    [⟨fun _ => none, { remoteHost := "h1", remotePort := "1" }, []⟩,
     ⟨fun _ => none, { remoteHost := "h2", remotePort := "2" }, []⟩]
    ⟨rfl, rfl⟩

/-- C6: on a fresh remote whose `Start` fails, `StartTunnel` returns the
error, records no tunnel (the list is unchanged), and the tunnel ID
`counter + 1` stays consumed: the next successful fresh allocation hands
out the decimal form of `counter + 2`, numerically strictly larger. -/
theorem startTunnel_failure_consumes_id (c : Client) (se : Remote → Option String)
    (r : Remote) (acl : TunnelACL) (e : String)
    (hf : c.FindTunnelByRemote r = none) (hse : se r = some e) :
    (c.StartTunnel se r acl).1 = Except.error e
      ∧ (c.StartTunnel se r acl).2.Tunnels = c.Tunnels
      ∧ (c.StartTunnel se r acl).2.tunnelIDAutoIncrement = c.tunnelIDAutoIncrement + 1
      ∧ ∀ se2 r2 acl2,
          (c.StartTunnel se r acl).2.FindTunnelByRemote r2 = none → se2 r2 = none →
          ∃ t2 : Tunnel,
            ((c.StartTunnel se r acl).2.StartTunnel se2 r2 acl2).1 = Except.ok t2
              ∧ t2.id = toString (c.tunnelIDAutoIncrement + 2)
              ∧ c.tunnelIDAutoIncrement + 1 < c.tunnelIDAutoIncrement + 2 := by
  have heq := startTunnel_new_fail_eq c se r acl e hf hse
  rw [heq]
  refine ⟨rfl, rfl, rfl, ?_⟩
  intro se2 r2 acl2 hf2 hse2
  rw [startTunnel_new_ok_eq _ se2 r2 acl2 hf2 hse2]
  exact ⟨_, rfl, rfl, Nat.lt_succ_self _⟩

/-- C6 witness: on `clientA` (counter 1), a failing bind for a fresh
remote consumes ID 2; the next successful fresh allocation yields "3". -/
theorem startTunnel_failure_consumes_id_witness :
    (clientA.StartTunnel (fun _ => some "bind failed")
        { remoteHost := "h9", remotePort := "9" } []).1 = Except.error "bind failed"
      ∧ (clientA.StartTunnel (fun _ => some "bind failed")
          { remoteHost := "h9", remotePort := "9" } []).2.Tunnels = clientA.Tunnels
      ∧ (clientA.StartTunnel (fun _ => some "bind failed")
          { remoteHost := "h9", remotePort := "9" } []).2.tunnelIDAutoIncrement
          = clientA.tunnelIDAutoIncrement + 1
      ∧ ∀ se2 r2 acl2,
          (clientA.StartTunnel (fun _ => some "bind failed")
              { remoteHost := "h9", remotePort := "9" } []).2.FindTunnelByRemote r2 = none →
          se2 r2 = none →
          ∃ t2 : Tunnel,
            ((clientA.StartTunnel (fun _ => some "bind failed")
                { remoteHost := "h9", remotePort := "9" } []).2.StartTunnel se2 r2 acl2).1
              = Except.ok t2
              ∧ t2.id = toString (clientA.tunnelIDAutoIncrement + 2)
              ∧ clientA.tunnelIDAutoIncrement + 1 < clientA.tunnelIDAutoIncrement + 2 :=
  startTunnel_failure_consumes_id clientA (fun _ => some "bind failed")
    { remoteHost := "h9", remotePort := "9" } [] "bind failed" (by decide) rfl

/-- Modelled from the spec (§9 Group matching): one matcher rule is
either an exact literal or a glob pattern; package `cgroups` is not under
`src/`, so a rule is kept abstract as a predicate on strings. A parameter
is its ordered rule list; the empty list means the parameter is not
specified. -/
abbrev ParamPatterns := List (String → Bool)

/-- Modelled from the spec (§4.4, §9): `MatchesOneOf(values…)` of a group
parameter — an unspecified parameter (no rules) constrains nothing and
matches; otherwise some supplied value must satisfy some rule. -/
def matchesOneOf (pats : ParamPatterns) (values : List String) : Bool :=
  pats.isEmpty || values.any (fun v => pats.any (fun pat => pat v))

/-- Modelled from the spec: the group's parameter set, one matcher per
client metadata field (`cgroups.ClientGroupParams` is not under
`src/`; the thirteen fields are those read by `Client.BelongsTo`). -/
structure ClientGroupParams where
  ClientID : ParamPatterns := []
  Name : ParamPatterns := []
  OS : ParamPatterns := []
  OSArch : ParamPatterns := []
  OSFamily : ParamPatterns := []
  OSKernel : ParamPatterns := []
  Hostname : ParamPatterns := []
  IPv4 : ParamPatterns := []
  IPv6 : ParamPatterns := []
  Tag : ParamPatterns := []
  Version : ParamPatterns := []
  Address : ParamPatterns := []
  ClientAuthID : ParamPatterns := []

/-- Modelled from the spec: a group has no parameters when none of its
thirteen parameters is specified. -/
def ClientGroupParams.HasNoParams (p : ClientGroupParams) : Bool :=
  p.ClientID.isEmpty && p.Name.isEmpty && p.OS.isEmpty && p.OSArch.isEmpty &&
    p.OSFamily.isEmpty && p.OSKernel.isEmpty && p.Hostname.isEmpty &&
    p.IPv4.isEmpty && p.IPv6.isEmpty && p.Tag.isEmpty && p.Version.isEmpty &&
    p.Address.isEmpty && p.ClientAuthID.isEmpty

/-- Modelled from the spec: a client group carries its parameter set
(`cgroups.ClientGroup` is not under `src/`). -/
structure ClientGroup where
  Params : ClientGroupParams

/-- Embeds `Client.BelongsTo` (`server/clients/client.go:154`): false when the
group has no parameters; otherwise the Go chain of
`if !p.X.MatchesOneOf(...) return false` early returns, rendered as a
short-circuit conjunction over the thirteen checks in source order. -/
def Client.BelongsTo (c : Client) (g : ClientGroup) : Bool :=
  if g.Params.HasNoParams then false
  else
    matchesOneOf g.Params.ClientID [c.ID] &&
    matchesOneOf g.Params.Name [c.Name] &&
    matchesOneOf g.Params.OS [c.OS] &&
    matchesOneOf g.Params.OSArch [c.OSArch] &&
    matchesOneOf g.Params.OSFamily [c.OSFamily] &&
    matchesOneOf g.Params.OSKernel [c.OSKernel] &&
    matchesOneOf g.Params.Hostname [c.Hostname] &&
    matchesOneOf g.Params.IPv4 c.IPv4 &&
    matchesOneOf g.Params.IPv6 c.IPv6 &&
    matchesOneOf g.Params.Tag c.Tags &&
    matchesOneOf g.Params.Version [c.Version] &&
    matchesOneOf g.Params.Address [c.Address] &&
    matchesOneOf g.Params.ClientAuthID [c.ClientAuthID]

/-- Declarative reading of one parameter check: if the parameter is
specified then some element of the field satisfies some of its rules. -/
def ParamHolds (pats : ParamPatterns) (values : List String) : Prop :=
  pats ≠ [] → ∃ v ∈ values, ∃ pat ∈ pats, pat v = true

/-- Lemma: `matchesOneOf` agrees with the declarative parameter reading. -/
theorem matchesOneOf_iff (pats : ParamPatterns) (values : List String) :
    matchesOneOf pats values = true ↔ ParamHolds pats values := by
  unfold matchesOneOf ParamHolds
  simp only [Bool.or_eq_true, List.isEmpty_iff, List.any_eq_true]
  constructor
  · rintro (h | ⟨v, hv, pat, hp, hpv⟩)
    · intro hne
      exact absurd h hne
    · exact fun _ => ⟨v, hv, pat, hp, hpv⟩
  · intro h
    by_cases hp : pats = []
    · exact Or.inl hp
    · exact Or.inr (h hp)

/-- C9: a group with no parameters matches nothing; otherwise
`BelongsTo` holds iff every specified parameter matches the session's
corresponding field, where a repeated field (IPv4, IPv6, tags) matches if
any of its elements does. -/
theorem belongsTo_iff_params_match (c : Client) (g : ClientGroup) :
    (g.Params.HasNoParams = true → c.BelongsTo g = false)
      ∧ (g.Params.HasNoParams = false →
          (c.BelongsTo g = true ↔
            (ParamHolds g.Params.ClientID [c.ID]
              ∧ ParamHolds g.Params.Name [c.Name]
              ∧ ParamHolds g.Params.OS [c.OS]
              ∧ ParamHolds g.Params.OSArch [c.OSArch]
              ∧ ParamHolds g.Params.OSFamily [c.OSFamily]
              ∧ ParamHolds g.Params.OSKernel [c.OSKernel]
              ∧ ParamHolds g.Params.Hostname [c.Hostname]
              ∧ ParamHolds g.Params.IPv4 c.IPv4
              ∧ ParamHolds g.Params.IPv6 c.IPv6
              ∧ ParamHolds g.Params.Tag c.Tags
              ∧ ParamHolds g.Params.Version [c.Version]
              ∧ ParamHolds g.Params.Address [c.Address]
              ∧ ParamHolds g.Params.ClientAuthID [c.ClientAuthID]))) := by
  constructor
  · intro h
    simp [Client.BelongsTo, h]
  · intro h
    simp [Client.BelongsTo, h, Bool.and_eq_true, matchesOneOf_iff, and_assoc]

/-- C9 witness: the empty group matches no client; a group whose only
specified parameter is a tag rule matches a client carrying that tag. -/
theorem belongsTo_iff_params_match_witness :
    ({ emptyClient with Tags := ["dev", "prod"] } : Client).BelongsTo ⟨{}⟩ = false
      ∧ ({ emptyClient with Tags := ["dev", "prod"] } : Client).BelongsTo
          ⟨{ Tag := [fun s => s == "prod"] }⟩ = true := by
  constructor
  · exact (belongsTo_iff_params_match _ ⟨{}⟩).1 rfl
  · refine ((belongsTo_iff_params_match _ ⟨{ Tag := [fun s => s == "prod"] }⟩).2 rfl).mpr ?_
    have he : ∀ values : List String, ParamHolds [] values := by
      intro values h
      exact absurd rfl h
    have htag : ParamHolds [fun s => s == "prod"] ["dev", "prod"] := by
      intro _
      exact ⟨"prod", by simp, fun s => s == "prod", by simp, rfl⟩
    exact ⟨he _, he _, he _, he _, he _, he _, he _, he _, he _, htag, he _, he _, he _⟩
/-- Outcome oracles for the session service's external collaborators:
the port distributor (`server/ports`, not under `src/`; `refreshErr` is
`Refresh`'s outcome and `freePorts` the stream of ports `GetRandomPort`
hands out, failing with exhaustion when the stream is empty), the ACL
parser `sessions.ParseTunnelACL` (not under `src/`), and the tunnel
`Start` outcome. -/
structure Env where
  refreshErr : Option String
  freePorts : List Nat
  parseACL : String → Except String TunnelACL
  startErr : Remote → Option String

/-- The loop body of `SessionService.StartSessionTunnels`
(`server/session_service.go:87`): for each remote in order, allocate a
random local port when none is specified (`strconv.Itoa(port)`,
`LocalHost = "0.0.0.0"`, `LocalPortRandom = true`), parse the ACL, start
the tunnel on the session, and append the result; any error returns
immediately. The evolving session and port stream are threaded and
returned even on error (in Go the session pointer keeps its
already-appended tunnels). The ACL-parse and `Start` oracles are passed
as the first two arguments. -/
def startTunnelsLoop (parseACL : String → Except String TunnelACL)
    (startErr : Remote → Option String) :
    List Remote → Client → List Nat → List Tunnel →
      Except String (List Tunnel) × Client × List Nat
  | [], session, ports, acc => (Except.ok acc, session, ports)
  | r :: rs, session, ports, acc =>
    let assigned : Except String (Remote × List Nat) :=
      if r.IsLocalSpecified then Except.ok (r, ports)
      else
        match ports with
        | [] => Except.error "no free ports left"
        | p :: rest =>
          Except.ok
            ({ r with localPort := toString p, localHost := "0.0.0.0",
                      localPortRandom := true }, rest)
    match assigned with
    | Except.error e => (Except.error e, session, ports)
    | Except.ok (r1, ports1) =>
      match parseACL r1.acl with
      | Except.error e => (Except.error e, session, ports1)
      | Except.ok acl =>
        match session.StartTunnel startErr r1 acl with
        | (Except.error e, session1) => (Except.error e, session1, ports1)
        | (Except.ok t, session1) =>
          startTunnelsLoop parseACL startErr rs session1 ports1 (acc ++ [t])

/-- Embeds `SessionService.StartSessionTunnels` (`server/session_service.go:81`):
`portDistributor.Refresh()` first, failing fast; then the per-remote
loop. -/
def StartSessionTunnels (env : Env) (session : Client) (remotes : List Remote) :
    Except String (List Tunnel) × Client × List Nat :=
  match env.refreshErr with
  | some e => (Except.error e, session, env.freePorts)
  | none =>
    startTunnelsLoop env.parseACL env.startErr remotes session env.freePorts []

/-- Follows the spec's wording (§4.6 `StartSessionTunnels` step 2) for
one remote: if no local port is specified, obtain one via
`GetRandomPort`, set `localHost = 0.0.0.0` and mark `localPortRandom`;
then parse the ACL; then call `session.StartTunnel`, yielding the new
tunnel or the first error together with the resulting session and port
states. -/
def processRemoteSpec (env : Env) (session : Client) (ports : List Nat) (r : Remote) :
    Except String Tunnel × Client × List Nat :=
  let afterAssign := fun (r1 : Remote) (ports1 : List Nat) =>
    match env.parseACL r1.acl with
    | Except.error e => (Except.error e, session, ports1)
    | Except.ok acl =>
      match session.StartTunnel env.startErr r1 acl with
      | (Except.error e, session1) => (Except.error e, session1, ports1)
      | (Except.ok t, session1) => (Except.ok t, session1, ports1)
  if r.IsLocalSpecified then afterAssign r ports
  else
    match ports with
    | [] => (Except.error "no free ports left", session, ports)
    | p :: rest =>
      afterAssign
        { r with localPort := toString p, localHost := "0.0.0.0",
                 localPortRandom := true } rest

/-- Prepends a tunnel to a successful tunnel-list result, passing errors
through. -/
def consTunnel (t : Tunnel) :
    Except String (List Tunnel) × Client × List Nat →
      Except String (List Tunnel) × Client × List Nat
  | (Except.ok ts, s1, p1) => (Except.ok (t :: ts), s1, p1)
  | (Except.error e, s1, p1) => (Except.error e, s1, p1)

/-- Prepends an already-collected tunnel prefix to a successful result,
passing errors through. -/
def withAcc (acc : List Tunnel) :
    Except String (List Tunnel) × Client × List Nat →
      Except String (List Tunnel) × Client × List Nat
  | (Except.ok ts, s1, p1) => (Except.ok (acc ++ ts), s1, p1)
  | (Except.error e, s1, p1) => (Except.error e, s1, p1)

/-- Collapsing two accumulator prefixes into one. -/
theorem withAcc_withAcc (a b : List Tunnel)
    (x : Except String (List Tunnel) × Client × List Nat) :
    withAcc a (withAcc b x) = withAcc (a ++ b) x := by
  obtain ⟨res, s, p⟩ := x
  cases res with
  | error e => rfl
  | ok ts => simp [withAcc]

/-- Prepending one tunnel is prefixing the singleton list. -/
theorem consTunnel_eq_withAcc (t : Tunnel)
    (x : Except String (List Tunnel) × Client × List Nat) :
    consTunnel t x = withAcc [t] x := by
  obtain ⟨res, s, p⟩ := x
  cases res with
  | error e => rfl
  | ok ts => rfl

/-- Accumulator generalization for the tunnel-start loop. -/
theorem startTunnelsLoop_acc (pa : String → Except String TunnelACL)
    (se : Remote → Option String) (rs : List Remote) :
    ∀ (s : Client) (p : List Nat) (acc : List Tunnel),
      startTunnelsLoop pa se rs s p acc
        = withAcc acc (startTunnelsLoop pa se rs s p []) := by
  induction rs with
  | nil =>
    intro s p acc
    simp [startTunnelsLoop, withAcc]
  | cons r rest ih =>
    intro s p acc
    simp only [startTunnelsLoop]
    split
    · rfl
    · split
      · rfl
      · split
        · rfl
        · rename_i t session1 heq
          rw [List.nil_append, ih _ _ (acc ++ [t]), ih _ _ [t], withAcc_withAcc]

/-- C7: `StartSessionTunnels` refreshes the port distributor first and
fails fast on its error (session and port pool untouched, no remote
processed); with a successful refresh, an empty remote list yields the
empty tunnel list unchanged, and a non-empty list is processed head
first through the spec's per-remote pipeline (random-port assignment for
an unspecified local side, ACL parse, `StartTunnel`), whose error aborts
immediately — the remaining remotes are never examined — and whose
tunnel is prepended to the recursive result on the tail, run with the
remaining port pool. -/
theorem startSessionTunnels_pipeline (env : Env) (session : Client) :
    (∀ e, env.refreshErr = some e →
        ∀ remotes, StartSessionTunnels env session remotes
          = (Except.error e, session, env.freePorts))
      ∧ (env.refreshErr = none →
          (StartSessionTunnels env session [] = (Except.ok [], session, env.freePorts))
            ∧ ∀ r rs,
                StartSessionTunnels env session (r :: rs)
                  = (match processRemoteSpec env session env.freePorts r with
                     | (Except.error e, s1, p1) => (Except.error e, s1, p1)
                     | (Except.ok t, s1, p1) =>
                         consTunnel t
                           (StartSessionTunnels { env with freePorts := p1 } s1 rs))) := by
  constructor
  · intro e he remotes
    unfold StartSessionTunnels
    rw [he]
  · intro hn
    have hloop : ∀ (p1 : List Nat) (s1 : Client) (rm : List Remote),
        StartSessionTunnels { env with freePorts := p1 } s1 rm
          = startTunnelsLoop env.parseACL env.startErr rm s1 p1 [] := by
      intro p1 s1 rm
      unfold StartSessionTunnels
      dsimp only
      rw [hn]
    have hloop0 : ∀ (s1 : Client) (rm : List Remote),
        StartSessionTunnels env s1 rm
          = startTunnelsLoop env.parseACL env.startErr rm s1 env.freePorts [] := by
      intro s1 rm
      unfold StartSessionTunnels
      rw [hn]
    constructor
    · rw [hloop0]
      rfl
    · intro r rs
      rw [hloop0]
      simp only [hloop]
      simp only [startTunnelsLoop, processRemoteSpec]
      by_cases hls : r.IsLocalSpecified
      · simp only [hls, if_pos, if_true]
        try dsimp only
        split
        · rfl
        · split
          · rfl
          · rename_i t session1 heq
            try dsimp only
            rw [List.nil_append,
              startTunnelsLoop_acc env.parseACL env.startErr rs session1 env.freePorts [t],
              consTunnel_eq_withAcc]
      · simp only [hls, Bool.false_eq_true, if_false]
        cases hp : env.freePorts with
        | nil => rfl
        | cons q qs =>
          try dsimp only
          split
          · rfl
          · split
            · rfl
            · rename_i t session1 heq
              try dsimp only
              rw [List.nil_append,
                startTunnelsLoop_acc env.parseACL env.startErr rs session1 qs [t],
                consTunnel_eq_withAcc]

/-- Shared concrete environment with a working port distributor, empty
ACLs and always-successful binds. -/
def envOk : Env :=
  { refreshErr := none, freePorts := [20000],
    parseACL := fun _ => Except.ok [], startErr := fun _ => none }

/-- C7 witness: with a successful refresh, no remotes yield no tunnels
and the port pool is untouched. -/
theorem startSessionTunnels_pipeline_witness :
    StartSessionTunnels envOk emptyClient [] = (Except.ok [], emptyClient, [20000]) := by
  have h := ((startSessionTunnels_pipeline envOk emptyClient).2 rfl).1
  simpa [envOk] using h

/-- Modelled from the spec (§4.5): the session repository — a mapping
from session ID to session (kept as an association list) plus the
optional retention duration (`sessions.ClientSessionRepository` with its
`KeepLostClients` field is not under `src/`). -/
structure SessionRepo where
  sessions : List (String × Client) := []
  KeepLostClients : Option Int := none
deriving DecidableEq, Repr

/-- Modelled from the spec (§4.5): `Save(s)` inserts or replaces the
entry under `s.ID`. -/
def SessionRepo.save (repo : SessionRepo) (c : Client) : SessionRepo :=
  { repo with
    sessions := repo.sessions.filter (fun kv => !(kv.1 == c.ID)) ++ [(c.ID, c)] }

/-- Modelled from the spec (§4.5): `Delete(s)` removes the entry for
`s.ID` (a no-op if absent). -/
def SessionRepo.delete (repo : SessionRepo) (c : Client) : SessionRepo :=
  { repo with sessions := repo.sessions.filter (fun kv => !(kv.1 == c.ID)) }

/-- Modelled from the spec (§4.5): `GetByID(id)` returns the stored
session, connected or disconnected, or nil. -/
def SessionRepo.getByID (repo : SessionRepo) (id : String) : Option Client :=
  (repo.sessions.find? (fun kv => kv.1 == id)).map (fun kv => kv.2)

/-- Looking up one key is unaffected by filtering another key out. -/
theorem find?_key_filter_ne (id key : String) (hne : id ≠ key) :
    ∀ l : List (String × Client),
      (l.filter (fun kv => !(kv.1 == key))).find? (fun kv => kv.1 == id)
        = l.find? (fun kv => kv.1 == id) := by
  intro l
  induction l with
  | nil => rfl
  | cons kv rest ih =>
    by_cases h : kv.1 = key
    · rw [List.filter_cons_of_neg (by simp [h]), ih,
        List.find?_cons_of_neg _
          (by simp only [beq_iff_eq]; exact fun hh => hne (hh ▸ h))]
    · by_cases hid : kv.1 = id
      · rw [List.filter_cons_of_pos (by simp [h]),
          List.find?_cons_of_pos _ (by simp [hid]),
          List.find?_cons_of_pos _ (by simp [hid])]
      · rw [List.filter_cons_of_pos (by simp [h]),
          List.find?_cons_of_neg _ (by simp [hid]), ih,
          List.find?_cons_of_neg _ (by simp [hid])]

/-- Lemma: `save` makes the saved session retrievable under its ID. -/
theorem getByID_save_self (repo : SessionRepo) (c : Client) :
    (repo.save c).getByID c.ID = some c := by
  unfold SessionRepo.save SessionRepo.getByID
  rw [List.find?_append]
  have h1 : (repo.sessions.filter (fun kv => !(kv.1 == c.ID))).find?
      (fun kv => kv.1 == c.ID) = none := by
    rw [List.find?_eq_none]
    intro x hx
    have := (List.mem_filter.mp hx).2
    simp at this
    simp [this]
  rw [h1]
  simp

/-- Lemma: `save` leaves other IDs untouched. -/
theorem getByID_save_other (repo : SessionRepo) (c : Client) (id : String)
    (h : id ≠ c.ID) : (repo.save c).getByID id = repo.getByID id := by
  unfold SessionRepo.save SessionRepo.getByID
  rw [List.find?_append, find?_key_filter_ne id c.ID h,
    List.find?_cons_of_neg _ (by simp [Ne.symm h])]
  simp

/-- Lemma: `delete` removes the entry under the session's ID. -/
theorem getByID_delete_self (repo : SessionRepo) (c : Client) :
    (repo.delete c).getByID c.ID = none := by
  unfold SessionRepo.delete SessionRepo.getByID
  have h1 : (repo.sessions.filter (fun kv => !(kv.1 == c.ID))).find?
      (fun kv => kv.1 == c.ID) = none := by
    rw [List.find?_eq_none]
    intro x hx
    have := (List.mem_filter.mp hx).2
    simp at this
    simp [this]
  rw [h1]
  rfl

/-- Lemma: `delete` leaves other IDs untouched. -/
theorem getByID_delete_other (repo : SessionRepo) (c : Client) (id : String)
    (h : id ≠ c.ID) : (repo.delete c).getByID id = repo.getByID id := by
  unfold SessionRepo.delete SessionRepo.getByID
  rw [find?_key_filter_ne id c.ID h]

/-- Embeds `SessionService.Terminate` (`server/session_service.go:113`): without
a retention policy (`KeepLostClients == nil`) the session is deleted;
otherwise its disconnection timestamp is set to the current time and it
is saved back. -/
def Terminate (repo : SessionRepo) (session : Client) (nowT : Int) : SessionRepo :=
  match repo.KeepLostClients with
  | none => repo.delete session
  | some _ => repo.save { session with DisconnectedAt := some nowT }

/-- C8: without a retention policy `Terminate` deletes the session from
the repository (its ID no longer resolves; other entries are untouched);
with one, the session is saved back with its disconnection time set to
now, so it is still retrievable but reports `Disconnected`, and other
entries are untouched. -/
theorem terminate_deletes_or_marks_disconnected (repo : SessionRepo)
    (session : Client) (nowT : Int) :
    (repo.KeepLostClients = none →
        (Terminate repo session nowT).getByID session.ID = none
          ∧ ∀ id, id ≠ session.ID →
              (Terminate repo session nowT).getByID id = repo.getByID id)
      ∧ (∀ d, repo.KeepLostClients = some d →
          (Terminate repo session nowT).getByID session.ID
              = some { session with DisconnectedAt := some nowT }
            ∧ ({ session with DisconnectedAt := some nowT } : Client).ConnectionState
                = ConnState.disconnected
            ∧ ∀ id, id ≠ session.ID →
                (Terminate repo session nowT).getByID id = repo.getByID id) := by
  constructor
  · intro hk
    unfold Terminate
    rw [hk]
    exact ⟨getByID_delete_self repo session,
      fun id hid => getByID_delete_other repo session id hid⟩
  · intro d hk
    unfold Terminate
    rw [hk]
    refine ⟨getByID_save_self repo _, rfl, ?_⟩
    intro id hid
    exact getByID_save_other repo _ id hid

/-- C8 witness: terminating `clientA` in a repository without retention
deletes it; with retention it stays retrievable, marked disconnected at
time 100. -/
theorem terminate_deletes_or_marks_disconnected_witness :
    (Terminate { sessions := [("c1", clientA)], KeepLostClients := none }
        clientA 100).getByID "c1" = none
      ∧ (Terminate { sessions := [("c1", clientA)], KeepLostClients := some 3600 }
          clientA 100).getByID "c1" = some { clientA with DisconnectedAt := some 100 } :=
  ⟨((terminate_deletes_or_marks_disconnected
      { sessions := [("c1", clientA)], KeepLostClients := none } clientA 100).1 rfl).1,
    ((terminate_deletes_or_marks_disconnected
      { sessions := [("c1", clientA)], KeepLostClients := some 3600 } clientA 100).2
        3600 rfl).1⟩

/-- Modelled from the spec (§6): the agent's connection request as read
by `StartClientSession` (`chshare.ConnectionRequest`, package `share`,
is not under `src/`). -/
structure ConnectionRequest where
  Name : String := ""
  Tags : List String := []
  OS : String := ""
  Hostname : String := ""
  Version : String := ""
  IPv4 : List String := []
  IPv6 : List String := []
  Remotes : List Remote := []

/-- Embeds `SessionService.StartClientSession` (`server/session_service.go:47`):
builds the session from the request metadata with an empty tunnel list,
runs `StartSessionTunnels`, and on success saves the session into the
repository. `addr` stands for `sshConn.RemoteAddr().String()`. Besides
the Go results (session-or-error and the updated repository) the last
component exposes the constructed session: in Go the tunnels already
started stay attached to it — and keep their listeners running — even
when an error makes the function discard it. -/
def StartClientSession (env : Env) (repo : SessionRepo) (sid : String)
    (addr : String) (req : ConnectionRequest) :
    Except String Client × SessionRepo × Client :=
  let session : Client :=
    { ID := sid, Name := req.Name, Tags := req.Tags, OS := req.OS,
      Hostname := req.Hostname, Version := req.Version, IPv4 := req.IPv4,
      IPv6 := req.IPv6, Address := addr, Tunnels := [] }
  match StartSessionTunnels env session req.Remotes with
  | (Except.error e, session1, _) => (Except.error e, repo, session1)
  | (Except.ok _, session1, _) => (Except.ok session1, repo.save session1, session1)

/-- Environment for the C1 run: refresh succeeds, ACLs parse empty, and
the bind for the remote targeting port 9002 fails. -/
def envLeak : Env :=
  { refreshErr := none, freePorts := [],
    parseACL := fun _ => Except.ok [],
    startErr := fun r => if r.remotePort == "9002" then some "bind failed" else none }

/-- Request for the C1 run: two fully specified remotes; the first binds
fine, the second fails. -/
def reqLeak : ConnectionRequest :=
  { Remotes :=
      [{ localHost := "127.0.0.1", localPort := "8001",
         remoteHost := "h", remotePort := "9001" },
       { localHost := "127.0.0.1", localPort := "8002",
         remoteHost := "h", remotePort := "9002" }] }

/-- C1: on a two-remote request whose second bind fails,
`StartClientSession` returns the error and does not save the session —
but the tunnel already started for the first remote is never terminated:
it is still attached to the discarded session (and its listener keeps
running). The claim's termination requirement does not hold in the
code. -/
theorem startClientSession_error_leaks_started_tunnels :
    (StartClientSession envLeak {} "sid1" "1.2.3.4:50000" reqLeak).1
        = Except.error "bind failed"
      ∧ (StartClientSession envLeak {} "sid1" "1.2.3.4:50000" reqLeak).2.1
          = ({} : SessionRepo)
      ∧ ((StartClientSession envLeak {} "sid1" "1.2.3.4:50000" reqLeak).2.2).Tunnels.length
          = 1 := by
  exact ⟨rfl, rfl, rfl⟩

end Rport
